import Mathlib

/-!
# Verification of the USRP2 DSP configuration core
  (host/lib/usrp/usrp2/dsp_impl.cpp)

Shallow embedding conventions:
* C++ `double` values are modelled as exact rationals (`ℚ`); the numeric
  formulas of the source are reproduced over `ℚ` (`1.65` is `33/20`).
* `boost::math::iround` (round half away from zero, to `int`) is `iround`.
* Unsigned 32-bit words are `ℕ` values reduced modulo `2^32`; the
  `int -> uint32_t` conversion wraps modulo `2^32` (two's complement),
  and `int -> int16_t` wraps modulo `2^16` into `[-2^15, 2^15)`.
* `ceil(log2 x)` on a positive integer `x` is `Nat.clog 2 x`.
* Register pokes and control packets are collected into output lists;
  thrown C++ exceptions become an `Err` value returned next to the
  post-call state, so mutations made before a throw stay visible.
* The master clock rate and the allowed decimation/interpolation rate
  set are device-supplied read-only data (`get_master_clock_freq()`,
  `_allowed_decim_and_interp_rates`); they are passed as parameters.
-/

/-- Embedding of `boost::math::iround` (`rint` in dsp_impl.cpp:32):
round half away from zero. -/
def iround (x : ℚ) : ℤ := if 0 ≤ x then ⌊x + 1 / 2⌋ else ⌈x - 1 / 2⌉

/-- Embedding of `double scale_factor = std::pow(2.0, 32)`
(dsp_impl.cpp:42). -/
def scale_factor : ℚ := 2 ^ 32

/-- Embedding of `calculate_freq_word_and_update_actual_freq`
(dsp_impl.cpp:41-51): the 32-bit frequency word
`rint((freq/clock_freq)*2^32)` (the `int` result wrapping into
`uint32_t` modulo `2^32`), paired with the updated "actual" frequency
`(double(freq_word)/scale_factor)*clock_freq`.  Note that
`double(freq_word)` converts the UNSIGNED word value. -/
def calculate_freq_word_and_update_actual_freq (freq clock_freq : ℚ) :
    ℕ × ℚ :=
  let freq_word : ℕ := ((iround (freq / clock_freq * scale_factor)) % (2 ^ 32 : ℤ)).toNat
  (freq_word, ((freq_word : ℚ) / scale_factor) * clock_freq)

/-- The C++ `int -> uint16_t` conversion: value modulo `2^16`. -/
def toU16 (i : ℤ) : ℕ := (i % (2 ^ 16 : ℤ)).toNat

/-- The C++ `int -> int16_t` conversion: wrap modulo `2^16` into
`[-2^15, 2^15)`. -/
def toI16 (z : ℤ) : ℤ := (z + 2 ^ 15) % 2 ^ 16 - 2 ^ 15

/-- Embedding of `calculate_iq_scale_word` (dsp_impl.cpp:53-55):
`(uint16_t(i) << 16) | uint16_t(q)`. -/
def calculate_iq_scale_word (i q : ℤ) : ℕ := toU16 i * 2 ^ 16 + toU16 q

/-- Embedding of the loop `while(tmp_interp > 128) tmp_interp /= 2;`
(dsp_impl.cpp:226-227). -/
def cic_interp (t : ℕ) : ℕ :=
  if 128 < t then cic_interp (t / 2) else t
termination_by t
decreasing_by exact Nat.div_lt_self (by omega) (by omega)

/-- Embedding of the transmit scale computation of `update_duc_config`
(dsp_impl.cpp:226-231): `interp_cubed = pow(double(tmp_interp), 3)`,
`int16_t scale = rint((4096*pow(2, ceil(log2(interp_cubed))))/(1.65*interp_cubed))`. -/
def duc_scale (interp : ℕ) : ℤ :=
  toI16 (iround ((4096 * 2 ^ (Nat.clog 2 (cic_interp interp ^ 3))) /
    (33 / 20 * (cic_interp interp : ℚ) ^ 3)))

/-- The GainCompensator scale exactly as section 4.3 of the spec words it:
`scale = round(4096 * 2^ceil(log2(gain)) / (1.65 * gain))` with
`gain = c^3`, CLAMPED to the 16-bit signed range.  Stated for comparison
against the source-derived `duc_scale`. -/
def spec_gain_scale (r : ℕ) : ℤ :=
  max (-(2 ^ 15)) (min
    (iround ((4096 * 2 ^ (Nat.clog 2 (cic_interp r ^ 3))) /
      (33 / 20 * (cic_interp r : ℚ) ^ 3)))
    (2 ^ 15 - 1))

/-- Embedding of `static const size_t default_decim = 16`
(dsp_impl.cpp:29). -/
def default_decim : ℕ := 16

/-- Embedding of `static const size_t default_interp = 16`
(dsp_impl.cpp:30). -/
def default_interp : ℕ := 16

/-- Embedding of `static const boost::int16_t default_rx_scale_iq = 1024`
(dsp_impl.cpp:78). -/
def default_rx_scale_iq : ℤ := 1024

/-- Hardware register identifiers touched by this file (their numeric
addresses live in usrp2_regs.hpp, outside src/; only their identity
matters here). -/
inductive Reg
  | rxDecimRate
  | rxScaleIq
  | rxFreq
  | txInterpRate
  | txScaleIq
  | txFreq
  deriving DecidableEq

/-- The error taxonomy of the spec, mapped onto the throw sites of the
source: `invalidFrequency` for the Nyquist `ASSERT_THROW`s,
`unsupportedRate` for `assert_has`, `unknownProperty` for the
`std::invalid_argument` fall-through (carrying the offending name),
`protocolAckMismatch` for the acknowledgment `ASSERT_THROW`, and
`typeMismatch` for a `wax::obj` cast to the wrong type. -/
inductive Err
  | invalidFrequency
  | unsupportedRate
  | unknownProperty (name : String)
  | protocolAckMismatch
  | typeMismatch
  deriving DecidableEq

/-- Embedding of `stream_cmd_t::stream_mode_t`. -/
inductive StreamMode
  | startContinuous
  | stopContinuous
  | numSampsAndDone
  | numSampsAndMore
  deriving DecidableEq

/-- Embedding of `stream_cmd_t`. -/
structure StreamCmd where
  stream_mode : StreamMode
  stream_now : Bool
  secs : ℕ
  ticks : ℕ
  num_samps : ℕ
  deriving DecidableEq

/-- The stream-command fields of the `usrp2_ctrl_data_t` request built by
`issue_ddc_stream_cmd` (dsp_impl.cpp:86-114).  Fields hold the logical
values; the `htonl` byte-order conversions are identities at this level
of abstraction. -/
structure CtrlPacket where
  id : ℕ
  now : ℕ
  secs : ℕ
  ticks : ℕ
  continuous : ℕ
  chain : ℕ
  num_samps : ℕ
  deriving DecidableEq

/-- Modelled from the spec: the numeric value of the stream-command
request identifier lives in a firmware header outside src/; only its
identity matters. -/
def USRP2_CTRL_ID_SEND_STREAM_COMMAND_FOR_ME_BRO : ℕ := 11

/-- Modelled from the spec: the numeric value of the fixed expected
acknowledgment identifier lives in a firmware header outside src/; only
its identity matters. -/
def USRP2_CTRL_ID_GOT_THAT_STREAM_COMMAND_DUDE : ℕ := 12

/-- The request built by `issue_ddc_stream_cmd` (dsp_impl.cpp:85-114):
defaults `continuous = 0`, `chain = 0`, `num_samps` as given, then the
per-mode switch adjusts them. -/
def encode_stream_cmd (c : StreamCmd) : CtrlPacket :=
  let base : CtrlPacket :=
    { id := USRP2_CTRL_ID_SEND_STREAM_COMMAND_FOR_ME_BRO
      now := if c.stream_now then 1 else 0
      secs := c.secs
      ticks := c.ticks
      continuous := 0
      chain := 0
      num_samps := c.num_samps }
  match c.stream_mode with
  | StreamMode.startContinuous => { base with continuous := 1 }
  | StreamMode.stopContinuous => { base with num_samps := 0 }
  | StreamMode.numSampsAndDone => base
  | StreamMode.numSampsAndMore => { base with chain := 1 }

/-- Embedding of the exchange in `issue_ddc_stream_cmd`
(dsp_impl.cpp:116-118): the encoded request is sent, and the response
identifier `resp` (supplied by the environment) must equal the fixed
expected acknowledgment identifier, else the call throws.  No
configuration state is read or written. -/
def issue_ddc_stream_cmd (c : StreamCmd) (resp : ℕ) :
    CtrlPacket × Option Err :=
  (encode_stream_cmd c,
   if resp = USRP2_CTRL_ID_GOT_THAT_STREAM_COMMAND_DUDE then none
   else some Err.protocolAckMismatch)

/-- The mutable configuration of `usrp2_impl` touched by this file:
`_ddc_decim`, `_ddc_freq`, `_duc_interp`, `_duc_freq`. -/
structure UState where
  ddc_decim : ℕ
  ddc_freq : ℚ
  duc_interp : ℕ
  duc_freq : ℚ
  deriving DecidableEq

/-- The observable outcome of one property-set (or init) call: the
post-call state, the register pokes issued, the control packets sent,
and the exception thrown (if any).  On a throw, `state` still reflects
every mutation made before the throw. -/
structure SetResult where
  state : UState
  pokes : List (Reg × ℕ)
  packets : List CtrlPacket
  err : Option Err
  deriving DecidableEq

/-- Typed property values (`wax::obj` contents used by this file). -/
inductive WaxObj
  | ofNat (n : ℕ)
  | ofRat (q : ℚ)
  | ofStreamCmd (c : StreamCmd)
  deriving DecidableEq

/-- Values produced by a property get. -/
inductive GetVal
  | ofStr (s : String)
  | ofNat (n : ℕ)
  | ofRat (q : ℚ)
  | ofRates (rs : List ℕ)
  deriving DecidableEq

/-- Embedding of `update_ddc_config` (dsp_impl.cpp:73-82): poke the
decimation and the (constant) receive scaling. -/
def update_ddc_config (s : UState) : List (Reg × ℕ) :=
  [(Reg.rxDecimRate, s.ddc_decim),
   (Reg.rxScaleIq, calculate_iq_scale_word default_rx_scale_iq default_rx_scale_iq)]

/-- Embedding of `update_duc_config` (dsp_impl.cpp:224-238): poke the
transmit interpolation register and the transmit scaling.  Note that
line 234 of the source pokes `_ddc_decim` — the RECEIVE decimation —
into `FR_DSP_TX_INTERP_RATE`. -/
def update_duc_config (s : UState) : List (Reg × ℕ) :=
  [(Reg.txInterpRate, s.ddc_decim),
   (Reg.txScaleIq,
    calculate_iq_scale_word (duc_scale s.duc_interp) (duc_scale s.duc_interp))]

/-- The `"decim"` branch of `ddc_set` (dsp_impl.cpp:178-187):
`assert_has` the new rate, then store it and re-run
`update_ddc_config`. -/
def ddc_set_decim (allowed : List ℕ) (s : UState) (new_decim : ℕ) : SetResult :=
  if new_decim ∈ allowed then
    ⟨{ s with ddc_decim := new_decim },
     update_ddc_config { s with ddc_decim := new_decim }, [], none⟩
  else ⟨s, [], [], some Err.unsupportedRate⟩

/-- The `"freq"` branch of `ddc_set` (dsp_impl.cpp:188-196): two Nyquist
`ASSERT_THROW`s, then store the ACHIEVED frequency and poke the
frequency word. -/
def ddc_set_freq (clock : ℚ) (s : UState) (new_freq : ℚ) : SetResult :=
  if new_freq ≤ clock / 2 ∧ -(clock / 2) ≤ new_freq then
    ⟨{ s with ddc_freq := (calculate_freq_word_and_update_actual_freq new_freq clock).2 },
     [(Reg.rxFreq, (calculate_freq_word_and_update_actual_freq new_freq clock).1)],
     [], none⟩
  else ⟨s, [], [], some Err.invalidFrequency⟩

/-- Embedding of `ddc_set` (dsp_impl.cpp:175-206), string-keyed
dispatch. -/
def ddc_set (clock : ℚ) (allowed : List ℕ) (s : UState)
    (key : String) (val : WaxObj) (resp : ℕ) : SetResult :=
  if key = "decim" then
    match val with
    | WaxObj.ofNat n => ddc_set_decim allowed s n
    | _ => ⟨s, [], [], some Err.typeMismatch⟩
  else if key = "freq" then
    match val with
    | WaxObj.ofRat q => ddc_set_freq clock s q
    | _ => ⟨s, [], [], some Err.typeMismatch⟩
  else if key = "stream_cmd" then
    match val with
    | WaxObj.ofStreamCmd c =>
      ⟨s, [], [(issue_ddc_stream_cmd c resp).1], (issue_ddc_stream_cmd c resp).2⟩
    | _ => ⟨s, [], [], some Err.typeMismatch⟩
  else ⟨s, [], [], some (Err.unknownProperty key)⟩

/-- Embedding of the string-keyed part of `ddc_get`
(dsp_impl.cpp:147-172).  A get reads the state and issues no pokes or
packets. -/
def ddc_get (clock : ℚ) (allowed : List ℕ) (s : UState) (key : String) :
    Except Err GetVal :=
  if key = "if_rate" then Except.ok (GetVal.ofRat clock)
  else if key = "bb_rate" then Except.ok (GetVal.ofRat (clock / s.ddc_decim))
  else if key = "decim" then Except.ok (GetVal.ofNat s.ddc_decim)
  else if key = "decims" then Except.ok (GetVal.ofRates allowed)
  else if key = "freq" then Except.ok (GetVal.ofRat s.ddc_freq)
  else Except.error (Err.unknownProperty key)

/-- The `"interp"` branch of `duc_set` (dsp_impl.cpp:296-305). -/
def duc_set_interp (allowed : List ℕ) (s : UState) (new_interp : ℕ) : SetResult :=
  if new_interp ∈ allowed then
    ⟨{ s with duc_interp := new_interp },
     update_duc_config { s with duc_interp := new_interp }, [], none⟩
  else ⟨s, [], [], some Err.unsupportedRate⟩

/-- The `"freq"` branch of `duc_set` (dsp_impl.cpp:306-314). -/
def duc_set_freq (clock : ℚ) (s : UState) (new_freq : ℚ) : SetResult :=
  if new_freq ≤ clock / 2 ∧ -(clock / 2) ≤ new_freq then
    ⟨{ s with duc_freq := (calculate_freq_word_and_update_actual_freq new_freq clock).2 },
     [(Reg.txFreq, (calculate_freq_word_and_update_actual_freq new_freq clock).1)],
     [], none⟩
  else ⟨s, [], [], some Err.invalidFrequency⟩

/-- Embedding of `duc_set` (dsp_impl.cpp:293-320): like `ddc_set` but
with `"interp"` in place of `"decim"` and NO `"stream_cmd"` branch. -/
def duc_set (clock : ℚ) (allowed : List ℕ) (s : UState)
    (key : String) (val : WaxObj) (resp : ℕ) : SetResult :=
  if key = "interp" then
    match val with
    | WaxObj.ofNat n => duc_set_interp allowed s n
    | _ => ⟨s, [], [], some Err.typeMismatch⟩
  else if key = "freq" then
    match val with
    | WaxObj.ofRat q => duc_set_freq clock s q
    | _ => ⟨s, [], [], some Err.typeMismatch⟩
  else ⟨s, [], [], some (Err.unknownProperty key)⟩

/-- Embedding of the string-keyed part of `duc_get`
(dsp_impl.cpp:265-290). -/
def duc_get (clock : ℚ) (allowed : List ℕ) (s : UState) (key : String) :
    Except Err GetVal :=
  if key = "if_rate" then Except.ok (GetVal.ofRat clock)
  else if key = "bb_rate" then Except.ok (GetVal.ofRat (clock / s.duc_interp))
  else if key = "interp" then Except.ok (GetVal.ofNat s.duc_interp)
  else if key = "interps" then Except.ok (GetVal.ofRates allowed)
  else if key = "freq" then Except.ok (GetVal.ofRat s.duc_freq)
  else Except.error (Err.unknownProperty key)

/-- The `DSP_PROP_OTHERS` list of the receive channel
(dsp_impl.cpp:133-140): its recognized string property names. -/
def ddc_prop_others : List String :=
  ["if_rate", "bb_rate", "decim", "decims", "freq", "stream_cmd"]

/-- The `DSP_PROP_OTHERS` list of the transmit channel
(dsp_impl.cpp:252-258): no `"stream_cmd"`. -/
def duc_prop_others : List String :=
  ["if_rate", "bb_rate", "interp", "interps", "freq"]

/-- Modelled from the spec: `stream_cmd_t(STREAM_MODE_STOP_CONTINUOUS)`
at dsp_impl.cpp:70 is built from the mode alone; the defaults of the
remaining fields live in a header outside src/ and are irrelevant to
the claims. -/
def stop_streaming_cmd : StreamCmd :=
  ⟨StreamMode.stopContinuous, true, 0, 0, 0⟩

/-- Embedding of `init_ddc_config` (dsp_impl.cpp:57-71): set the default
decimation and zero frequency, run `update_ddc_config`, then issue one
stop-continuous stream command. -/
def init_ddc_config (s : UState) (resp : ℕ) : SetResult :=
  ⟨{ s with ddc_decim := default_decim, ddc_freq := 0 },
   update_ddc_config { s with ddc_decim := default_decim, ddc_freq := 0 },
   [(issue_ddc_stream_cmd stop_streaming_cmd resp).1],
   (issue_ddc_stream_cmd stop_streaming_cmd resp).2⟩

/-- Embedding of `init_duc_config` (dsp_impl.cpp:211-222): set the
default interpolation and zero frequency and run `update_duc_config`;
no stream command is issued. -/
def init_duc_config (s : UState) : SetResult :=
  ⟨{ s with duc_interp := default_interp, duc_freq := 0 },
   update_duc_config { s with duc_interp := default_interp, duc_freq := 0 },
   [], none⟩

/-! ## Helper lemmas -/

theorem cic_interp_pos : ∀ t : ℕ, 1 ≤ t → 1 ≤ cic_interp t := by
  intro t
  induction t using Nat.strong_induction_on with
  | _ t ih =>
    intro ht
    rw [cic_interp]
    split_ifs with h128
    · exact ih (t / 2) (Nat.div_lt_self (by omega) (by omega)) (by omega)
    · exact ht

theorem iround_scale_bounds (c : ℕ) (hc : 1 ≤ c) :
    0 ≤ iround ((4096 * 2 ^ (Nat.clog 2 (c ^ 3))) / (33 / 20 * (c : ℚ) ^ 3)) ∧
    iround ((4096 * 2 ^ (Nat.clog 2 (c ^ 3))) / (33 / 20 * (c : ℚ) ^ 3)) ≤ 4965 := by
  have hc3 : 1 ≤ c ^ 3 := Nat.one_le_pow 3 c (by omega)
  have hle : c ^ 3 ≤ 2 ^ Nat.clog 2 (c ^ 3) := Nat.le_pow_clog (by norm_num) _
  have hlt : 2 ^ Nat.clog 2 (c ^ 3) < 2 * c ^ 3 := by
    rcases Nat.lt_or_ge (c ^ 3) 2 with h2 | h2
    · have h1 : c ^ 3 = 1 := by omega
      rw [h1, Nat.clog_one_right]
      norm_num
    · have hk : 0 < Nat.clog 2 (c ^ 3) := Nat.clog_pos (by norm_num) h2
      have hp : 2 ^ (Nat.clog 2 (c ^ 3) - 1) < c ^ 3 :=
        Nat.pow_pred_clog_lt_self (by norm_num) (by omega)
      have h2k : 2 ^ Nat.clog 2 (c ^ 3) = 2 ^ (Nat.clog 2 (c ^ 3) - 1) * 2 := by
        rw [← pow_succ]
        congr 1
        omega
      omega
  have hcq : (1 : ℚ) ≤ (c : ℚ) := by exact_mod_cast hc
  have hg : (0 : ℚ) < (c : ℚ) ^ 3 := by positivity
  have hleQ : ((c : ℚ) ^ 3) ≤ 2 ^ Nat.clog 2 (c ^ 3) := by exact_mod_cast hle
  have hltQ : (2 : ℚ) ^ Nat.clog 2 (c ^ 3) < 2 * (c : ℚ) ^ 3 := by exact_mod_cast hlt
  have hden : (0 : ℚ) < 33 / 20 * (c : ℚ) ^ 3 := by positivity
  have hx0 : (0 : ℚ) ≤ (4096 * 2 ^ (Nat.clog 2 (c ^ 3))) / (33 / 20 * (c : ℚ) ^ 3) := by
    positivity
  have hxu : (4096 * 2 ^ (Nat.clog 2 (c ^ 3))) / (33 / 20 * (c : ℚ) ^ 3) < 4965 := by
    rw [div_lt_iff hden]
    nlinarith [hltQ, hg]
  constructor
  · rw [iround, if_pos hx0]
    exact Int.floor_nonneg.mpr (by linarith)
  · rw [iround, if_pos hx0]
    have hfl : ⌊(4096 * 2 ^ (Nat.clog 2 (c ^ 3))) / (33 / 20 * (c : ℚ) ^ 3) + 1 / 2⌋ <
        (4966 : ℤ) := by
      apply Int.floor_lt.mpr
      push_cast
      linarith
    omega

theorem duc_scale_eq_spec_gain (r : ℕ) (hr : 1 ≤ r) :
    duc_scale r = spec_gain_scale r := by
  obtain ⟨h0, h1⟩ := iround_scale_bounds (cic_interp r) (cic_interp_pos r hr)
  unfold duc_scale spec_gain_scale toI16
  set z := iround ((4096 * 2 ^ (Nat.clog 2 (cic_interp r ^ 3))) /
    (33 / 20 * (cic_interp r : ℚ) ^ 3)) with hz
  rw [show ((2 : ℤ) ^ 15) = 32768 by norm_num, show ((2 : ℤ) ^ 16) = 65536 by norm_num,
    Int.emod_eq_of_lt (by omega) (by omega), min_eq_left (by omega),
    max_eq_right (by omega)]
  omega

theorem cic_interp_sixteen : cic_interp 16 = 16 := by
  rw [cic_interp]
  norm_num

theorem duc_scale_sixteen : duc_scale 16 = 2482 := by
  have h1 : duc_scale 16 = toI16 (iround (81920 / 33)) := by
    unfold duc_scale
    rw [cic_interp_sixteen, show (16 : ℕ) ^ 3 = 2 ^ 12 by norm_num,
      Nat.clog_pow _ _ (by norm_num)]
    norm_num
  have h2 : iround (81920 / 33 : ℚ) = 2482 := by
    rw [iround, if_pos (by norm_num),
      show (81920 / 33 + 1 / 2 : ℚ) = 163873 / 66 by norm_num, Int.floor_eq_iff]
    norm_num
  rw [h1, h2]
  decide

theorem calc_word_neg_quarter :
    calculate_freq_word_and_update_actual_freq (-25000000) 100000000 =
      (3221225472, 75000000) := by
  have h1 : iround ((-25000000 : ℚ) / 100000000 * scale_factor) = -(2 ^ 30) := by
    rw [scale_factor, iround, if_neg (by norm_num),
      show ((-25000000 : ℚ) / 100000000 * 2 ^ 32 - 1 / 2 : ℚ) = -(2147483649 / 2)
        by norm_num,
      Int.ceil_eq_iff]
    norm_num
  have h2 : ((-(2 ^ 30) : ℤ) % 2 ^ 32).toNat = 3221225472 := by decide
  simp only [calculate_freq_word_and_update_actual_freq, h1, h2]
  norm_num [scale_factor]

/-! ## Claim theorems -/

/-- C1: the frequency tuner computes the word `round((freq/clockRate)*2^32)`
wrapped modulo `2^32` as claimed (for clock 100 MHz and freq -25 MHz the
word is `2^32 - 2^30`), but the achieved frequency is computed from the
UNSIGNED word value, not the claimed two's-complement interpretation: the
code yields +75 MHz where the claim's formula yields -25 MHz. -/
theorem freq_tuner_actual_freq_uses_unsigned_word :
    calculate_freq_word_and_update_actual_freq (-25000000) 100000000 =
      (3221225472, 75000000) ∧
    (3221225472 : ℕ) = 2 ^ 32 - 2 ^ 30 ∧
    ((3221225472 : ℚ) - 2 ^ 32) / 2 ^ 32 * 100000000 = -25000000 ∧
    (75000000 : ℚ) ≠ -25000000 :=
  ⟨calc_word_neg_quarter, by norm_num, by norm_num, by norm_num⟩

/-- C2: the stored-configuration invariant `|frequencyOffset| <= clockRate/2`
is violated by the code: a successful receive-frequency set to -25 MHz at
clock 100 MHz stores a frequency offset of +75 MHz, which exceeds
clockRate/2 = 50 MHz. -/
theorem ddc_set_freq_breaks_nyquist_invariant :
    (ddc_set 100000000 [16] ⟨16, 0, 16, 0⟩ "freq" (WaxObj.ofRat (-25000000)) 0).err
      = none ∧
    (ddc_set 100000000 [16] ⟨16, 0, 16, 0⟩ "freq"
        (WaxObj.ofRat (-25000000)) 0).state.ddc_freq = 75000000 ∧
    (100000000 : ℚ) / 2 <
      |(ddc_set 100000000 [16] ⟨16, 0, 16, 0⟩ "freq"
        (WaxObj.ofRat (-25000000)) 0).state.ddc_freq| := by
  have hd : ddc_set 100000000 [16] ⟨16, 0, 16, 0⟩ "freq"
      (WaxObj.ofRat (-25000000)) 0 =
      ddc_set_freq 100000000 ⟨16, 0, 16, 0⟩ (-25000000) := rfl
  have h2 : ddc_set_freq 100000000 ⟨16, 0, 16, 0⟩ (-25000000) =
      ⟨⟨16, 75000000, 16, 0⟩, [(Reg.rxFreq, 3221225472)], [], none⟩ := by
    unfold ddc_set_freq
    rw [if_pos (by norm_num), calc_word_neg_quarter]
  rw [hd, h2]
  refine ⟨rfl, rfl, ?_⟩
  rw [show |(75000000 : ℚ)| = 75000000 from abs_of_nonneg (by norm_num)]
  norm_num

/-- C3: after a successful set of the transmit interpolation rate, the
transmit interpolation-rate register does NOT hold the transmit channel's
interpolation value: dsp_impl.cpp:234 pokes `_ddc_decim` (the receive
decimation, here 16) into `FR_DSP_TX_INTERP_RATE` although the new
interpolation is 64. -/
theorem duc_set_interp_pokes_rx_decim :
    duc_set 100000000 [16, 64] ⟨16, 0, 16, 0⟩ "interp" (WaxObj.ofNat 64) 0 =
      ⟨⟨16, 0, 64, 0⟩,
       [(Reg.txInterpRate, 16),
        (Reg.txScaleIq, calculate_iq_scale_word (duc_scale 64) (duc_scale 64))],
       [], none⟩ ∧
    (16 : ℕ) ≠ 64 := by
  constructor
  · show duc_set_interp [16, 64] ⟨16, 0, 16, 0⟩ 64 = _
    unfold duc_set_interp
    rw [if_pos (by decide)]
    rfl
  · decide

/-- C4: a frequency request with `|freq| > clockRate/2` fails with
`invalidFrequency` on either channel, leaving the stored configuration
untouched and issuing no register writes. -/
theorem set_freq_beyond_nyquist_fails (clock : ℚ) (allowed : List ℕ)
    (s : UState) (freq : ℚ) (resp : ℕ) (h : clock / 2 < |freq|) :
    ddc_set clock allowed s "freq" (WaxObj.ofRat freq) resp =
      ⟨s, [], [], some Err.invalidFrequency⟩ ∧
    duc_set clock allowed s "freq" (WaxObj.ofRat freq) resp =
      ⟨s, [], [], some Err.invalidFrequency⟩ := by
  have hcond : ¬(freq ≤ clock / 2 ∧ -(clock / 2) ≤ freq) := by
    rintro ⟨ha, hb⟩
    have habs : |freq| ≤ clock / 2 := abs_le.mpr ⟨by linarith, ha⟩
    linarith
  constructor
  · show ddc_set_freq clock s freq = _
    unfold ddc_set_freq
    rw [if_neg hcond]
  · show duc_set_freq clock s freq = _
    unfold duc_set_freq
    rw [if_neg hcond]

/-- Witness for C4 at clock 100 MHz, freq 60 MHz. -/
theorem set_freq_beyond_nyquist_fails_witness :
    (100000000 : ℚ) / 2 < |(60000000 : ℚ)| ∧
    ddc_set 100000000 [16] ⟨16, 0, 16, 0⟩ "freq" (WaxObj.ofRat 60000000) 0 =
      ⟨⟨16, 0, 16, 0⟩, [], [], some Err.invalidFrequency⟩ :=
  ⟨by rw [abs_of_nonneg (by norm_num : (0 : ℚ) ≤ 60000000)]; norm_num,
   (set_freq_beyond_nyquist_fails 100000000 [16] ⟨16, 0, 16, 0⟩ 60000000 0
     (by rw [abs_of_nonneg (by norm_num : (0 : ℚ) ≤ 60000000)]; norm_num)).1⟩

/-- C5: setting a rate outside the allowed set fails with
`unsupportedRate` on either channel; the stored rate, the whole
configuration, and hence the derived bandwidth (`bb_rate` =
clock / rate) are unchanged, and no registers are written. -/
theorem set_unsupported_rate_fails (clock : ℚ) (allowed : List ℕ)
    (s : UState) (r resp : ℕ) (h : r ∉ allowed) :
    ddc_set clock allowed s "decim" (WaxObj.ofNat r) resp =
      ⟨s, [], [], some Err.unsupportedRate⟩ ∧
    duc_set clock allowed s "interp" (WaxObj.ofNat r) resp =
      ⟨s, [], [], some Err.unsupportedRate⟩ ∧
    ddc_get clock allowed
        (ddc_set clock allowed s "decim" (WaxObj.ofNat r) resp).state "bb_rate" =
      ddc_get clock allowed s "bb_rate" ∧
    duc_get clock allowed
        (duc_set clock allowed s "interp" (WaxObj.ofNat r) resp).state "bb_rate" =
      duc_get clock allowed s "bb_rate" := by
  have h1 : ddc_set clock allowed s "decim" (WaxObj.ofNat r) resp =
      ⟨s, [], [], some Err.unsupportedRate⟩ := by
    show ddc_set_decim allowed s r = _
    unfold ddc_set_decim
    rw [if_neg h]
  have h2 : duc_set clock allowed s "interp" (WaxObj.ofNat r) resp =
      ⟨s, [], [], some Err.unsupportedRate⟩ := by
    show duc_set_interp allowed s r = _
    unfold duc_set_interp
    rw [if_neg h]
  exact ⟨h1, h2, by rw [h1], by rw [h2]⟩

/-- Witness for C5 at rate 7 against allowed set [4, 8, 16]. -/
theorem set_unsupported_rate_fails_witness :
    (7 : ℕ) ∉ [4, 8, 16] ∧
    ddc_set 100000000 [4, 8, 16] ⟨16, 0, 16, 0⟩ "decim" (WaxObj.ofNat 7) 0 =
      ⟨⟨16, 0, 16, 0⟩, [], [], some Err.unsupportedRate⟩ :=
  ⟨by decide,
   (set_unsupported_rate_fails 100000000 [4, 8, 16] ⟨16, 0, 16, 0⟩ 7 0
     (by decide)).1⟩

/-- C6: the transmit gain compensation follows the spec's formula
(halve while above 128 to get `c`, `gain = c^3`,
`scale = round(4096*2^ceil(log2(gain))/(1.65*gain))` clamped to the
signed 16-bit range: `duc_scale = spec_gain_scale` for every positive
rate, so that the always-in-range wrap of the code equals the claimed
clamp); the identical scale value feeds both halves of the scale
register; the computation is deterministic; and for rate 16 the coarse
factor is 16, gain is 4096, and the scale is the specific value 2482. -/
theorem duc_gain_scale_matches_spec :
    (∀ r : ℕ, 1 ≤ r → duc_scale r = spec_gain_scale r) ∧
    (∀ s : UState, update_duc_config s =
      [(Reg.txInterpRate, s.ddc_decim),
       (Reg.txScaleIq,
        calculate_iq_scale_word (duc_scale s.duc_interp) (duc_scale s.duc_interp))]) ∧
    (∀ r : ℕ, duc_scale r = duc_scale r) ∧
    cic_interp 16 = 16 ∧ cic_interp 16 ^ 3 = 4096 ∧ duc_scale 16 = 2482 := by
  refine ⟨duc_scale_eq_spec_gain, fun s => rfl, fun r => rfl,
    cic_interp_sixteen, ?_, duc_scale_sixteen⟩
  rw [cic_interp_sixteen]
  norm_num

/-- Witness for C6 at rate 16. -/
theorem duc_gain_scale_matches_spec_witness :
    1 ≤ 16 ∧ duc_scale 16 = spec_gain_scale 16 :=
  ⟨by decide, duc_gain_scale_matches_spec.1 16 (by decide)⟩

/-- C7: the encoded stream-command request follows the mode table:
start-continuous sets continuous = 1, chain = 0, numSamples as given;
stop-continuous sets continuous = 0, chain = 0 and forces numSamples to
0 regardless of the supplied value; samples-and-done sets 0/0 with
numSamples as given; samples-and-more sets 0/1 with numSamples as
given. -/
theorem stream_cmd_encoding_mode_table (now : Bool) (secs ticks ns : ℕ) :
    encode_stream_cmd ⟨StreamMode.startContinuous, now, secs, ticks, ns⟩ =
      ⟨USRP2_CTRL_ID_SEND_STREAM_COMMAND_FOR_ME_BRO, if now then 1 else 0,
       secs, ticks, 1, 0, ns⟩ ∧
    encode_stream_cmd ⟨StreamMode.stopContinuous, now, secs, ticks, ns⟩ =
      ⟨USRP2_CTRL_ID_SEND_STREAM_COMMAND_FOR_ME_BRO, if now then 1 else 0,
       secs, ticks, 0, 0, 0⟩ ∧
    encode_stream_cmd ⟨StreamMode.numSampsAndDone, now, secs, ticks, ns⟩ =
      ⟨USRP2_CTRL_ID_SEND_STREAM_COMMAND_FOR_ME_BRO, if now then 1 else 0,
       secs, ticks, 0, 0, ns⟩ ∧
    encode_stream_cmd ⟨StreamMode.numSampsAndMore, now, secs, ticks, ns⟩ =
      ⟨USRP2_CTRL_ID_SEND_STREAM_COMMAND_FOR_ME_BRO, if now then 1 else 0,
       secs, ticks, 0, 1, ns⟩ :=
  ⟨rfl, rfl, rfl, rfl⟩

/-- C8: when the response identifier differs from the fixed expected
acknowledgment identifier, the stream-command exchange fails with
`protocolAckMismatch`, the stored configuration is unchanged and no
registers are written (the request packet was already sent), and the
same channel then accepts a fresh stream command: with a matching
acknowledgment the identical call succeeds from the same state. -/
theorem stream_cmd_ack_mismatch_fails (clock : ℚ) (allowed : List ℕ)
    (s : UState) (c : StreamCmd) (resp : ℕ)
    (h : resp ≠ USRP2_CTRL_ID_GOT_THAT_STREAM_COMMAND_DUDE) :
    ddc_set clock allowed s "stream_cmd" (WaxObj.ofStreamCmd c) resp =
      ⟨s, [], [encode_stream_cmd c], some Err.protocolAckMismatch⟩ ∧
    ddc_set clock allowed s "stream_cmd" (WaxObj.ofStreamCmd c)
        USRP2_CTRL_ID_GOT_THAT_STREAM_COMMAND_DUDE =
      ⟨s, [], [encode_stream_cmd c], none⟩ := by
  have hi : issue_ddc_stream_cmd c resp =
      (encode_stream_cmd c, some Err.protocolAckMismatch) := by
    unfold issue_ddc_stream_cmd
    rw [if_neg h]
  have hi2 : issue_ddc_stream_cmd c USRP2_CTRL_ID_GOT_THAT_STREAM_COMMAND_DUDE =
      (encode_stream_cmd c, none) := by
    unfold issue_ddc_stream_cmd
    rw [if_pos rfl]
  constructor
  · show (⟨s, [], [(issue_ddc_stream_cmd c resp).1],
      (issue_ddc_stream_cmd c resp).2⟩ : SetResult) = _
    rw [hi]
  · show (⟨s, [],
      [(issue_ddc_stream_cmd c USRP2_CTRL_ID_GOT_THAT_STREAM_COMMAND_DUDE).1],
      (issue_ddc_stream_cmd c USRP2_CTRL_ID_GOT_THAT_STREAM_COMMAND_DUDE).2⟩ :
        SetResult) = _
    rw [hi2]

/-- Witness for C8 with response identifier 0. -/
theorem stream_cmd_ack_mismatch_fails_witness :
    (0 : ℕ) ≠ USRP2_CTRL_ID_GOT_THAT_STREAM_COMMAND_DUDE ∧
    ddc_set 100000000 [16] ⟨16, 0, 16, 0⟩ "stream_cmd"
        (WaxObj.ofStreamCmd stop_streaming_cmd) 0 =
      ⟨⟨16, 0, 16, 0⟩, [], [encode_stream_cmd stop_streaming_cmd],
       some Err.protocolAckMismatch⟩ :=
  ⟨by decide,
   (stream_cmd_ack_mismatch_fails 100000000 [16] ⟨16, 0, 16, 0⟩
     stop_streaming_cmd 0 (by decide)).1⟩

/-- C9: get and set on a name outside a channel's recognized property
set fail with `unknownProperty` carrying the offending name, leaving
the stored configuration unchanged; in particular the transmit channel
does not recognize `"stream_cmd"`, so setting it there fails with
`unknownProperty "stream_cmd"`. -/
theorem unknown_property_name_fails (clock : ℚ) (allowed : List ℕ)
    (s : UState) (name : String) (val : WaxObj) (resp : ℕ) :
    (name ∉ ddc_prop_others →
      ddc_get clock allowed s name = Except.error (Err.unknownProperty name) ∧
      ddc_set clock allowed s name val resp =
        ⟨s, [], [], some (Err.unknownProperty name)⟩) ∧
    (name ∉ duc_prop_others →
      duc_get clock allowed s name = Except.error (Err.unknownProperty name) ∧
      duc_set clock allowed s name val resp =
        ⟨s, [], [], some (Err.unknownProperty name)⟩) ∧
    duc_set clock allowed s "stream_cmd" val resp =
      ⟨s, [], [], some (Err.unknownProperty "stream_cmd")⟩ := by
  refine ⟨?_, ?_, rfl⟩
  · intro h
    simp only [ddc_prop_others, List.mem_cons, List.not_mem_nil, or_false,
      not_or] at h
    obtain ⟨h1, h2, h3, h4, h5, h6⟩ := h
    constructor
    · unfold ddc_get
      rw [if_neg h1, if_neg h2, if_neg h3, if_neg h4, if_neg h5]
    · unfold ddc_set
      rw [if_neg h3, if_neg h5, if_neg h6]
  · intro h
    simp only [duc_prop_others, List.mem_cons, List.not_mem_nil, or_false,
      not_or] at h
    obtain ⟨h1, h2, h3, h4, h5⟩ := h
    constructor
    · unfold duc_get
      rw [if_neg h1, if_neg h2, if_neg h3, if_neg h4, if_neg h5]
    · unfold duc_set
      rw [if_neg h3, if_neg h5]

/-- Witness for C9 at the unrecognized name "bogus". -/
theorem unknown_property_name_fails_witness :
    "bogus" ∉ ddc_prop_others ∧
    ddc_get 100000000 [16] ⟨16, 0, 16, 0⟩ "bogus" =
      Except.error (Err.unknownProperty "bogus") :=
  ⟨by decide,
   ((unknown_property_name_fails 100000000 [16] ⟨16, 0, 16, 0⟩ "bogus"
       (WaxObj.ofNat 0) 0).1 (by decide)).1⟩

/-- C10: receive-channel initialization sets decimation 16 and frequency
0, writes the decimation and scaling registers, and issues exactly one
stream command, a stop-continuous one (continuous = 0, chain = 0,
numSamples = 0); transmit-channel initialization sets interpolation 16
and frequency 0 and issues no stream command. -/
theorem init_config_defaults (s : UState) (resp : ℕ) :
    (init_ddc_config s resp).state = ⟨16, 0, s.duc_interp, s.duc_freq⟩ ∧
    (init_ddc_config s resp).pokes =
      [(Reg.rxDecimRate, 16),
       (Reg.rxScaleIq, calculate_iq_scale_word 1024 1024)] ∧
    (init_ddc_config s resp).packets = [encode_stream_cmd stop_streaming_cmd] ∧
    (encode_stream_cmd stop_streaming_cmd).continuous = 0 ∧
    (encode_stream_cmd stop_streaming_cmd).chain = 0 ∧
    (encode_stream_cmd stop_streaming_cmd).num_samps = 0 ∧
    (init_duc_config s).state = ⟨s.ddc_decim, s.ddc_freq, 16, 0⟩ ∧
    (init_duc_config s).packets = [] :=
  ⟨rfl, rfl, rfl, rfl, rfl, rfl, rfl, rfl⟩
